import Mathlib

/-!
Shallow embedding of `src/app.py` (a Streamlit app: a JSON-input submit handler
appending rows to a spreadsheet store, and a TF-IDF / cosine-similarity search
over the stored rows), together with theorems settling the specification claims.

Conventions of the embedding:
* Python JSON values are modelled by the inductive type `JValue`; `json.loads`
  itself is Python's standard library, so theorems quantify over an arbitrary
  parse function `jsonLoads : String → Except Unit JValue` and constrain only
  the parse outcomes they need (each concrete instantiation used in a witness
  or counterexample agrees with `json.loads` at the inputs where it is
  evaluated).
* The external spreadsheet (gspread) is modelled by its contract: the sheet is
  an ordered list of rows, `append_row` appends at the end, `get_all_records`
  returns all rows in order.  `save_data` also clears a resource cache in the
  source, which has no effect on the stored rows and is not modelled.
* Exceptions are modelled with `Except`; Python float arithmetic is modelled
  exactly over `ℚ` (see the note at `cosSimSq` for how cosine similarity is
  represented without square roots).
-/

namespace App

/-- A parsed JSON value, the result of `json.loads` on the pasted input. -/
inductive JValue where
  | null
  | bool (b : Bool)
  | num (q : ℚ)
  | str (s : String)
  | arr (elems : List JValue)
  | obj (fields : List (String × JValue))

/-- A row of the spreadsheet, as built by the tab-1 submit handler
(`row_data` in `src/app.py`): an ordered list of 14 cell values. -/
abbrev Row := List JValue

/-- The external spreadsheet: an ordered sequence of rows. -/
abbrev Store := List Row

/-- Embedding of `save_data` (src/app.py lines 35-40): `sheet.append_row(row_data)`
on the external sheet, modelled by its contract of appending one row at the end. -/
def save_data (store : Store) (row_data : Row) : Store :=
  store ++ [row_data]

/-- Embedding of `get_data` (src/app.py lines 29-33): `sheet.get_all_records()`,
modelled by its contract of returning every stored row in order. -/
def get_data (store : Store) : Store :=
  store

/-- Last-occurrence lookup: a Python `dict` built from a JSON object keeps the
last value bound to each key, so `data.get(k, d)` sees the last occurrence. -/
def lookupLast (k : String) : List (String × JValue) → Option JValue
  | [] => none
  | (k', v) :: rest =>
    match lookupLast k rest with
    | some w => some w
    | none => if k' = k then some v else none

/-- Embedding of Python `data.get(k, dflt)` on the parsed JSON object. -/
def dGet (fields : List (String × JValue)) (k : String) (dflt : JValue) : JValue :=
  match lookupLast k fields with
  | some v => v
  | none => dflt

/-- Helper for `pyJoin`: Python `str.join` over a list raises `TypeError`
unless every element is a string. -/
def strList : List JValue → Except Unit (List String)
  | [] => Except.ok []
  | JValue.str s :: rest => (strList rest).map (fun l => s :: l)
  | _ :: _ => Except.error ()

/-- Embedding of Python `sep.join(v)`: joining a list requires all-string
elements; joining a string iterates its characters; joining a dict iterates its
keys (first-insertion order); any other argument raises `TypeError`. -/
def pyJoin (sep : String) (v : JValue) : Except Unit String :=
  match v with
  | JValue.str s => Except.ok (String.intercalate sep (s.toList.map (fun c => String.mk [c])))
  | JValue.arr elems => (strList elems).map (String.intercalate sep)
  | JValue.obj fields => Except.ok (String.intercalate sep ((fields.map Prod.fst).eraseDups))
  | _ => Except.error ()

/-- The flattening applied to `key_arguments` and `evidence`
(src/app.py lines 90-94): join with newline-dash, then prepend a dash bullet
when nonempty. -/
def bulletJoin (l : List String) : String :=
  let j := String.intercalate "\n- " l
  if j = "" then j else "- " ++ j

/-- Embedding of the `row_data` construction in the tab-1 submit handler
(src/app.py lines 89-112).  The collection timestamp string
`datetime.now().strftime(...)` is passed in as `now`.  Python raises
(`TypeError`) out of the two `join` calls exactly when the corresponding value
is not joinable; the raise is caught by the surrounding `except Exception`
handler, modelled here with `Except.error`. -/
def rowData (now : String) (data : List (String × JValue)) : Except Unit Row :=
  match pyJoin "\n- " (dGet data "key_arguments" (JValue.arr [])) with
  | Except.error e => Except.error e
  | Except.ok kaJ =>
    let key_arguments := if kaJ = "" then kaJ else "- " ++ kaJ
    match pyJoin "\n- " (dGet data "evidence" (JValue.arr [])) with
    | Except.error e => Except.error e
    | Except.ok evJ =>
      let evidence := if evJ = "" then evJ else "- " ++ evJ
      Except.ok
        [ JValue.str now,
          dGet data "published_at" (JValue.str ""),
          dGet data "video_id" (JValue.str ""),
          dGet data "title" (JValue.str ""),
          dGet data "channel_name" (JValue.str ""),
          dGet data "main_topic" (JValue.str ""),
          JValue.str key_arguments,
          JValue.str evidence,
          dGet data "implications" (JValue.str ""),
          dGet data "validity_check" (JValue.str ""),
          dGet data "sentiment" (JValue.str ""),
          dGet data "full_summary" (JValue.str ""),
          dGet data "tags" (JValue.str ""),
          dGet data "url" (JValue.str "") ]

/-- What the tab-1 handler renders after a submit: a success banner, the
malformed-JSON error banner, or the generic save-error banner. -/
inductive SubmitResult where
  | success (title : JValue)
  | malformedInput
  | saveError

/-- Embedding of the tab-1 submit handler (src/app.py lines 85-120) for a
submitted form.  `jsonLoads` is the outcome of Python's `json.loads` on each
input.  The guard `if submitted and json_input:` means an empty input string is
falsy and the whole handler body is skipped: nothing is parsed, saved, or
rendered (second component `none`).  A parse failure (`json.JSONDecodeError`)
renders the malformed-JSON error; any other exception while building the row
(e.g. `data.get` on a non-dict, or `join` on a non-joinable value) is caught by
`except Exception` and renders the generic save error; on success the row is
appended via `save_data` and a success banner naming `data.get('title')` is
rendered. -/
def tab1Submit (jsonLoads : String → Except Unit JValue) (now : String)
    (json_input : String) (store : Store) : Store × Option SubmitResult :=
  if json_input = "" then (store, none)
  else
    match jsonLoads json_input with
    | Except.error _ => (store, some SubmitResult.malformedInput)
    | Except.ok data =>
      match data with
      | JValue.obj fields =>
        match rowData now fields with
        | Except.ok row =>
          (save_data store row, some (SubmitResult.success (dGet fields "title" JValue.null)))
        | Except.error _ => (store, some SubmitResult.saveError)
      | _ => (store, some SubmitResult.saveError)

/-!
## The search engine (`search_documents`, src/app.py lines 43-69)

The dataframe read back from the sheet is a table over the 14 sheet columns;
`search_documents` reads the five text columns `제목` (title), `핵심주제`
(main topic), `핵심주장` (key arguments), `시사점` (implications) and `요약`
(full summary), so a stored row is modelled as a `Record` of the 14 column
strings.
-/

/-- One stored row as seen by the chatbot tab: the 14 sheet columns
(A 수집일시 … N URL), in sheet order, all text. -/
structure Record where
  capturedAt : String
  publishedAt : String
  videoId : String
  title : String
  channelName : String
  mainTopic : String
  keyArguments : String
  evidence : String
  implications : String
  validityCheck : String
  sentiment : String
  fullSummary : String
  tags : String
  url : String
deriving DecidableEq

/-- The pandas dataframe passed to `search_documents`: its rows, plus the
`combined_text` column when present (the function adds it in place). -/
structure DataFrame where
  rows : List Record
  combined_text : Option (List String)
deriving DecidableEq

/-- The `combined_text` value of one row (src/app.py lines 48-54): title,
main topic, key arguments, implications and summary joined with single
spaces. -/
def combinedText (r : Record) : String :=
  r.title ++ " " ++ r.mainTopic ++ " " ++ r.keyArguments ++ " " ++ r.implications
    ++ " " ++ r.fullSummary

/-- A character matched by the regex class `\w` of the default sklearn token
pattern (ASCII range; the inputs exercised by the claims are ASCII). -/
def isWordChar (c : Char) : Bool :=
  c.isAlphanum || c = '_'

/-- Maximal runs of word characters in a character list (`acc` holds the
current run, reversed). -/
def wordRuns : List Char → List Char → List (List Char)
  | [], acc => if acc.isEmpty then [] else [acc.reverse]
  | c :: cs, acc =>
    if isWordChar c then wordRuns cs (c :: acc)
    else if acc.isEmpty then wordRuns cs acc else acc.reverse :: wordRuns cs []

/-- The default sklearn `TfidfVectorizer` analyzer: lowercase the text, then
take the tokens matched by `\b\w\w+\b`, i.e. the maximal word-character runs
of length at least 2, in order. -/
def tokenize (s : String) : List String :=
  ((wordRuns (s.toList.map Char.toLower) []).filter (fun r => 2 ≤ r.length)).map
    (fun r => String.mk r)

/-- Lexicographic comparison of character lists by code point: the ordering
under which sklearn sorts its feature names, on the ASCII tokens at issue. -/
def charListLe : List Char → List Char → Bool
  | [], _ => true
  | _ :: _, [] => false
  | a :: as, b :: bs =>
    if a.toNat < b.toNat then true
    else if b.toNat < a.toNat then false
    else charListLe as bs

/-- The string ordering used to sort the fitted vocabulary. -/
def vocabLe (a b : String) : Prop := charListLe a.toList b.toList = true

instance : DecidableRel vocabLe := fun a b =>
  inferInstanceAs (Decidable (charListLe a.toList b.toList = true))

/-- The fitted vocabulary: all distinct tokens of the document set, sorted
(sklearn sorts feature names alphabetically; only the set matters for the
similarities). -/
def vocabulary (docs : List String) : List String :=
  List.insertionSort vocabLe (docs.foldr (fun d acc => tokenize d ++ acc) []).eraseDups

/-- Document frequency of a term over the fitted document set. -/
def docFreq (docs : List String) (t : String) : ℕ :=
  (docs.filter (fun d => (tokenize d).contains t)).length

/-- The tf-idf vector of a text over the fitted vocabulary: per term, raw
count in the text times the fitted idf weight.  sklearn's idf with its default
smoothing is `ln((1+n)/(1+df(t))) + 1`, a transcendental value; it is kept
abstract as `idf n (df t)`, and every theorem quantifies over `idf` (bounded
below by 1 where needed, as the real weight always is).  sklearn additionally
L2-normalizes each row, which cancels inside cosine similarity and is omitted. -/
def tfidfVec (idf : ℕ → ℕ → ℚ) (docs : List String) (vocab : List String)
    (text : String) : List ℚ :=
  vocab.map (fun t => ((tokenize text).count t : ℚ) * idf docs.length (docFreq docs t))

/-- Dot product of two equal-length rational vectors. -/
def dot : List ℚ → List ℚ → ℚ
  | x :: xs, y :: ys => x * y + dot xs ys
  | _, _ => 0

/-- Squared cosine similarity, `(q·d)² / (‖q‖²‖d‖²)`, with the sklearn
convention that a zero vector has similarity 0.  True cosine similarity needs
a square root; since tf-idf vectors have nonnegative entries, every cosine
value here lies in `[0, 1]`, so squaring is strictly monotone on the attained
values: the squared form has the same order and the same sign as
`cosine_similarity` in the source, which is all `search_documents` consumes
(an `argsort` and a `> 0` test). -/
def cosSimSq (q d : List ℚ) : ℚ :=
  let den := dot q q * dot d d
  if den = 0 then 0 else dot q d ^ 2 / den

/-- The similarity row `cosine_similarity(query_vec, tfidf_matrix).flatten()`
(src/app.py lines 56-60), in the order-faithful squared form of `cosSimSq`. -/
def cosineSimsSq (idf : ℕ → ℕ → ℚ) (query : String) (docs : List String) : List ℚ :=
  let vocab := vocabulary docs
  let qv := tfidfVec idf docs vocab query
  docs.map (fun d => cosSimSq qv (tfidfVec idf docs vocab d))

/-- The sort key of the model of numpy's ascending `argsort` on the
similarity array: position `i` comes before position `j` when its value is
smaller, with ties broken by position.  numpy's default `argsort` (quicksort)
is documented NOT stable, so a deterministic model must fix some tie
resolution; this (value, position) key is the one numpy realizes on small
arrays (its insertion-sort path, which covers every concrete input in this
file) and is otherwise one admissible resolution.  No universally quantified
theorem below depends on the tie direction: such theorems state only
tie-robust properties (which values are selected and that the value sequence
is monotone), and tie-ORDER statements appear only at concrete two-element
inputs, where the model is exact. -/
def argsortKey (sims : List ℚ) (i j : ℕ) : Prop :=
  sims.getD i 0 < sims.getD j 0 ∨ (sims.getD i 0 = sims.getD j 0 ∧ i ≤ j)

instance (sims : List ℚ) : DecidableRel (argsortKey sims) := fun i j =>
  inferInstanceAs (Decidable (sims.getD i 0 < sims.getD j 0 ∨
    (sims.getD i 0 = sims.getD j 0 ∧ i ≤ j)))

/-- Embedding of `cosine_sim.argsort()`: the positions `0, …, n-1` sorted
ascending by value, with the tie resolution fixed by `argsortKey` (see its
doc comment for the fidelity discussion).  `argsortKey sims` is a decidable
linear order on positions, so any sorting algorithm yields the same list;
insertion sort is used. -/
def argsort (sims : List ℚ) : List ℕ :=
  List.insertionSort (argsortKey sims) (List.range sims.length)

/-- Embedding of the Python slice-and-reverse `a[-top_k:][::-1]`.  Note
`a[-0:]` is `a[0:]`, the whole list: a negative-from-the-end slice with
`top_k = 0` does not mean "last zero elements". -/
def sliceLastReverse (l : List ℕ) (top_k : ℕ) : List ℕ :=
  (if top_k = 0 then l else l.drop (l.length - top_k)).reverse

/-- `top_indices = cosine_sim.argsort()[-top_k:][::-1]` (src/app.py line 61). -/
def topIndices (sims : List ℚ) (top_k : ℕ) : List ℕ :=
  sliceLastReverse (argsort sims) top_k

/-- Embedding of `search_documents(query, df, top_k)` (src/app.py lines
43-69).  The in-place mutation `df['combined_text'] = …` is modelled by
returning the updated dataframe as the second component; it happens before the
`try`, so it is visible on every non-empty-input path, including the
`ValueError` path.  `fit_transform` raises `ValueError` exactly when the
fitted vocabulary is empty (no document yields any token); the `try/except
ValueError` then returns `[]`.  Results are the rows at `top_indices` whose
similarity is strictly positive, in `top_indices` order. -/
def search_documents (idf : ℕ → ℕ → ℚ) (query : String) (df : DataFrame)
    (top_k : ℕ) : List Record × DataFrame :=
  if df.rows.isEmpty then ([], df)
  else
    let docs := df.rows.map combinedText
    let df' : DataFrame := { rows := df.rows, combined_text := some docs }
    if (vocabulary docs).isEmpty then ([], df')
    else
      let sims := cosineSimsSq idf query docs
      let results := (topIndices sims top_k).filterMap
        (fun idx => if 0 < sims.getD idx 0 then df.rows[idx]? else none)
      (results, df')

/-!
## Ordering facts about the argsort model

`argsortKey sims` is a decidable linear order on positions (value ascending,
position ascending on ties): total, transitive and antisymmetric.
-/

instance (sims : List ℚ) : IsTrans ℕ (argsortKey sims) := by
  refine ⟨fun a b c hab hbc => ?_⟩
  rcases hab with h | ⟨he, hle⟩ <;> rcases hbc with h' | ⟨he', hle'⟩
  · exact Or.inl (h.trans h')
  · exact Or.inl (h.trans_eq he')
  · exact Or.inl (he.trans_lt h')
  · exact Or.inr ⟨he.trans he', hle.trans hle'⟩

instance (sims : List ℚ) : IsTotal ℕ (argsortKey sims) := by
  refine ⟨fun a b => ?_⟩
  rcases lt_trichotomy (sims.getD a 0) (sims.getD b 0) with h | h | h
  · exact Or.inl (Or.inl h)
  · rcases le_total a b with hab | hab
    · exact Or.inl (Or.inr ⟨h, hab⟩)
    · exact Or.inr (Or.inr ⟨h.symm, hab⟩)
  · exact Or.inr (Or.inl h)

instance (sims : List ℚ) : IsAntisymm ℕ (argsortKey sims) := by
  refine ⟨fun a b hab hba => ?_⟩
  rcases hab with h | ⟨he, hle⟩ <;> rcases hba with h' | ⟨he', hle'⟩
  · exact absurd (h.trans h') (lt_irrefl _)
  · exact absurd h (he'.symm ▸ lt_irrefl _)
  · exact absurd h' (he ▸ lt_irrefl _)
  · exact le_antisymm hle hle'

/-- The cell positions of the recognized JSON keys in the appended row
(position 0 is the collection timestamp). -/
def dataKeyCells : List (ℕ × String) :=
  [(1, "published_at"), (2, "video_id"), (3, "title"), (4, "channel_name"),
   (5, "main_topic"), (6, "key_arguments"), (7, "evidence"), (8, "implications"),
   (9, "validity_check"), (10, "sentiment"), (11, "full_summary"), (12, "tags"),
   (13, "url")]

/-!
## Concrete inputs used by witnesses and counterexamples
-/

/-- An admissible idf weighting (the real smoothed idf `ln((1+n)/(1+df))+1`
is always at least 1; the constant 1 realizes that bound). -/
def idfOne : ℕ → ℕ → ℚ := fun _ _ => 1

/-- A record whose title is "hello" and whose other fields are empty. -/
def recHello : Record := ⟨"", "", "", "hello", "", "", "", "", "", "", "", "", "", ""⟩

/-- A record whose summary is "hello" and whose other fields are empty:
distinct from `recHello` but with the same token content. -/
def recHelloSummary : Record := ⟨"", "", "", "", "", "", "", "", "", "", "", "hello", "", ""⟩

/-- The first record of the spec's ranking example. -/
def recFed : Record := ⟨"", "", "", "Fed rate hike", "", "", "", "", "", "", "", "rates up", "", ""⟩

/-- The second record of the spec's ranking example. -/
def recGold : Record :=
  ⟨"", "", "", "Gold outlook", "", "", "", "", "", "", "", "bullish gold", "", ""⟩

/-- A record whose only text is the single character "a": its combined text
yields no token of length ≥ 2, so the fitted vocabulary is empty. -/
def recSingle : Record := ⟨"", "", "", "a", "", "", "", "", "", "", "", "", "", ""⟩

/-- A one-record dataframe. -/
def dfHello : DataFrame := ⟨[recHello], none⟩

/-- The similarity row for `dfHello` under `idfOne`. -/
def simsHello : List ℚ := cosineSimsSq idfOne "hello" ([recHello].map combinedText)

/-- A parse-outcome function used to instantiate `tab1Submit` theorems at
inputs where `json.loads` fails; it is only ever evaluated at the empty and
the all-whitespace string, on both of which `json.loads` raises
`json.JSONDecodeError`. -/
def failingParse : String → Except Unit JValue := fun _ => Except.error ()

/-- The parsed JSON object with the single key "tags" bound to the two-string
list ["a", "b"]. -/
def fieldsTags : List (String × JValue) :=
  [("tags", JValue.arr [JValue.str "a", JValue.str "b"])]

/-- The parsed JSON object binding "key_arguments" to the list ["x", "y"] and
"tags" to the list ["a", "b"]. -/
def fieldsKaTags : List (String × JValue) :=
  [("key_arguments", JValue.arr [JValue.str "x", JValue.str "y"]),
   ("tags", JValue.arr [JValue.str "a", JValue.str "b"])]

/-- The outcome of `json.loads` on the well-formed input consisting of a JSON
object binding the single key key_arguments to null. -/
def kaNullParse : String → Except Unit JValue :=
  fun _ => Except.ok (JValue.obj [("key_arguments", JValue.null)])

/-- The outcome of `json.loads` on the input consisting of the empty JSON
object. -/
def emptyObjParse : String → Except Unit JValue := fun _ => Except.ok (JValue.obj [])

/-- The row appended for the empty object: the timestamp, then 13 empty
strings. -/
def row14Empty : Row :=
  [JValue.str "2025-01-01 00:00:00", JValue.str "", JValue.str "", JValue.str "",
   JValue.str "", JValue.str "", JValue.str "", JValue.str "", JValue.str "",
   JValue.str "", JValue.str "", JValue.str "", JValue.str "", JValue.str ""]

/-!
## Ordering lemmas
-/

lemma argsort_perm (sims : List ℚ) : List.Perm (argsort sims) (List.range sims.length) :=
  List.perm_insertionSort _ _

lemma argsort_length (sims : List ℚ) : (argsort sims).length = sims.length := by
  rw [(argsort_perm sims).length_eq, List.length_range]

lemma argsort_sorted (sims : List ℚ) : (argsort sims).Pairwise (argsortKey sims) :=
  List.sorted_insertionSort _ _

/-- Weakening of `argsort_sorted` to the similarity values alone: the values
along the ascending argsort are non-decreasing.  Unlike the tie-breaking key,
this holds for ANY correct argsort outcome, stable or not. -/
lemma argsort_pairwise_le (sims : List ℚ) :
    (argsort sims).Pairwise (fun i j => sims.getD i 0 ≤ sims.getD j 0) :=
  (argsort_sorted sims).imp (fun h => by
    rcases h with h | ⟨he, _⟩
    · exact le_of_lt h
    · exact le_of_eq he)

lemma topIndices_length_le (sims : List ℚ) {top_k : ℕ} (hk : top_k ≠ 0) :
    (topIndices sims top_k).length ≤ top_k := by
  unfold topIndices sliceLastReverse
  rw [if_neg hk, List.length_reverse, List.length_drop]
  omega

lemma topIndices_length (sims : List ℚ) (top_k : ℕ) :
    (topIndices sims top_k).length =
      (if top_k = 0 then sims.length else min top_k sims.length) := by
  unfold topIndices sliceLastReverse
  by_cases hk : top_k = 0
  · rw [if_pos hk, if_pos hk, List.length_reverse, argsort_length]
  · rw [if_neg hk, if_neg hk, List.length_reverse, List.length_drop, argsort_length]
    omega

lemma topIndices_nodup (sims : List ℚ) (top_k : ℕ) :
    (topIndices sims top_k).Nodup := by
  have ha : (argsort sims).Nodup :=
    (argsort_perm sims).nodup_iff.mpr (List.nodup_range _)
  unfold topIndices sliceLastReverse
  rw [List.nodup_reverse]
  split
  · exact ha
  · exact (List.drop_sublist _ _).nodup ha

lemma topIndices_mem_argsort {sims : List ℚ} {top_k i : ℕ}
    (hi : i ∈ topIndices sims top_k) : i ∈ argsort sims := by
  unfold topIndices sliceLastReverse at hi
  rw [List.mem_reverse] at hi
  split at hi
  · exact hi
  · exact List.Sublist.mem hi (List.drop_sublist _ _)

lemma topIndices_mem_lt (sims : List ℚ) (top_k : ℕ) :
    ∀ i ∈ topIndices sims top_k, i < sims.length := by
  intro i hi
  exact List.mem_range.mp ((argsort_perm sims).mem_iff.mp (topIndices_mem_argsort hi))

/-- The selected index sequence is in non-increasing similarity order — a
tie-robust consequence of any ascending argsort followed by the reversal. -/
lemma topIndices_pairwise_ge (sims : List ℚ) (top_k : ℕ) :
    (topIndices sims top_k).Pairwise (fun i j => sims.getD j 0 ≤ sims.getD i 0) := by
  unfold topIndices sliceLastReverse
  rw [List.pairwise_reverse]
  split
  · exact argsort_pairwise_le sims
  · exact (argsort_pairwise_le sims).sublist (List.drop_sublist _ _)

/-- The selection is of the topK HIGHEST similarities: every selected index
dominates every valid unselected index.  Tie-robust: it constrains only the
similarity values, not which of several equal-valued indices is kept. -/
lemma topIndices_optimal (sims : List ℚ) (top_k : ℕ) :
    ∀ i ∈ topIndices sims top_k, ∀ j, j < sims.length →
      j ∉ topIndices sims top_k → sims.getD j 0 ≤ sims.getD i 0 := by
  intro i hi j hj hjn
  have hja : j ∈ argsort sims :=
    (argsort_perm sims).mem_iff.mpr (List.mem_range.mpr hj)
  unfold topIndices sliceLastReverse at hi hjn
  rw [List.mem_reverse] at hi
  rw [List.mem_reverse] at hjn
  by_cases hk : top_k = 0
  · rw [if_pos hk] at hjn
    exact absurd hja hjn
  · rw [if_neg hk] at hi hjn
    have hsplit := List.take_append_drop ((argsort sims).length - top_k) (argsort sims)
    have hpw := argsort_pairwise_le sims
    rw [← hsplit, List.pairwise_append] at hpw
    have hjt : j ∈ (argsort sims).take ((argsort sims).length - top_k) := by
      rcases List.mem_append.mp (by rw [hsplit]; exact hja) with h | h
      · exact h
      · exact absurd h hjn
    exact hpw.2.2 j hjt i hi

/-!
## Unfolding lemmas for `search_documents`
-/

/-- On a non-empty dataframe whose fitted vocabulary is non-empty,
`search_documents` returns the positively-similar rows at `top_indices` and
the dataframe with the `combined_text` column set. -/
lemma search_documents_eval (idf : ℕ → ℕ → ℚ) (query : String) (df : DataFrame)
    (top_k : ℕ) (hne : df.rows ≠ [])
    (hv : vocabulary (df.rows.map combinedText) ≠ []) :
    search_documents idf query df top_k =
      ((topIndices (cosineSimsSq idf query (df.rows.map combinedText)) top_k).filterMap
        (fun idx =>
          if 0 < (cosineSimsSq idf query (df.rows.map combinedText)).getD idx 0
          then df.rows[idx]? else none),
       ⟨df.rows, some (df.rows.map combinedText)⟩) := by
  unfold search_documents
  rw [if_neg (by simpa [List.isEmpty_iff] using hne)]
  dsimp only
  rw [if_neg (by simpa [List.isEmpty_iff] using hv)]

/-- On a non-empty dataframe whose fitted vocabulary is empty (the
`ValueError` path), `search_documents` returns no results. -/
lemma search_documents_vocab_empty (idf : ℕ → ℕ → ℚ) (query : String)
    (df : DataFrame) (top_k : ℕ) (hne : df.rows ≠ [])
    (hfail : vocabulary (df.rows.map combinedText) = []) :
    (search_documents idf query df top_k).1 = [] := by
  unfold search_documents
  rw [if_neg (by simpa [List.isEmpty_iff] using hne)]
  dsimp only
  rw [if_pos (by simpa [List.isEmpty_iff] using hfail)]

/-- When the fitted vocabulary is empty, every tf-idf vector is empty and
every similarity is 0. -/
lemma cosineSimsSq_of_vocab_empty (idf : ℕ → ℕ → ℚ) (query : String)
    {docs : List String} (hv : vocabulary docs = []) :
    cosineSimsSq idf query docs = docs.map (fun _ => 0) := by
  simp [cosineSimsSq, hv, tfidfVec, cosSimSq, dot]

/-!
## Lemmas about the submit handler
-/

lemma lookupLast_eq_none {k : String} :
    ∀ {l : List (String × JValue)}, (∀ v, (k, v) ∉ l) → lookupLast k l = none
  | [], _ => rfl
  | (k', v') :: rest, h => by
    have hrest : ∀ v, (k, v) ∉ rest := fun v hv => h v (List.mem_cons_of_mem _ hv)
    have hk : ¬ k' = k := by
      intro he
      subst he
      exact h v' (List.mem_cons_self _ _)
    simp [lookupLast, lookupLast_eq_none hrest, hk]

/-- A key bound nowhere in the parsed object makes `data.get(k, dflt)` return
the default. -/
lemma dGet_of_not_mem {fields : List (String × JValue)} {k : String} {dflt : JValue}
    (h : ∀ v, (k, v) ∉ fields) : dGet fields k dflt = dflt := by
  unfold dGet
  rw [lookupLast_eq_none h]

lemma strList_map_str (l : List String) : strList (l.map JValue.str) = Except.ok l := by
  induction l with
  | nil => rfl
  | cons a as ih => simp [strList, ih, Except.map]

/-- Joining a JSON array of strings succeeds and intercalates them. -/
lemma pyJoin_arr_str (sep : String) (l : List String) :
    pyJoin sep (JValue.arr (l.map JValue.str)) = Except.ok (String.intercalate sep l) := by
  simp [pyJoin, strList_map_str, Except.map]

/-!
## Claim theorems
-/

/-- C6: for every query string and every topK, search applied to an empty
record set returns an empty sequence (and leaves the dataframe untouched). -/
theorem c6_search_empty_records (idf : ℕ → ℕ → ℚ) (query : String) (top_k : ℕ)
    (col : Option (List String)) :
    search_documents idf query ⟨[], col⟩ top_k = ([], ⟨[], col⟩) := rfl

/-- C7: when TF-IDF vectorization fails — `fit_transform` raises `ValueError`
exactly when the fitted vocabulary is empty — search returns an empty result
sequence instead of propagating the failure. -/
theorem c7_search_vectorization_failure (idf : ℕ → ℕ → ℚ) (query : String)
    (df : DataFrame) (top_k : ℕ) (hne : df.rows ≠ [])
    (hfail : vocabulary (df.rows.map combinedText) = []) :
    (search_documents idf query df top_k).1 = [] :=
  search_documents_vocab_empty idf query df top_k hne hfail

/-- Witness for C7 at a concrete input: a single record whose only text is
"a" yields no token of length ≥ 2, so the vocabulary is empty and the search
returns no results. -/
theorem c7_search_vectorization_failure_witness :
    (([recSingle] : List Record) ≠ []) ∧
    vocabulary (([recSingle] : List Record).map combinedText) = [] ∧
    (search_documents idfOne "hello" ⟨[recSingle], none⟩ 3).1 = [] :=
  ⟨by decide, by decide,
    c7_search_vectorization_failure idfOne "hello" ⟨[recSingle], none⟩ 3
      (by decide) (by decide)⟩

/-- C8: appending a row and then fetching all rows yields the prior sequence
with that row, field-for-field, as the last element. -/
theorem c8_append_then_fetch (store : Store) (row : Row) :
    get_data (save_data store row) = get_data store ++ [row] := rfl

/-- C10: on every non-empty record set, `search_documents` sets the
`combined_text` column of the caller's dataframe to the concatenation of the
title, main-topic, key-arguments, implications and summary fields of each
row, and leaves the rows (all other columns) unchanged — on the success path
and on the vectorization-failure path alike. -/
theorem c10_search_mutates_dataframe (idf : ℕ → ℕ → ℚ) (query : String)
    (df : DataFrame) (top_k : ℕ) (hne : df.rows ≠ []) :
    (search_documents idf query df top_k).2 =
      ⟨df.rows, some (df.rows.map combinedText)⟩ := by
  unfold search_documents
  rw [if_neg (by simpa [List.isEmpty_iff] using hne)]
  dsimp only
  split <;> rfl

/-- Witness for C10 at a concrete input. -/
theorem c10_search_mutates_dataframe_witness :
    (dfHello.rows ≠ []) ∧
    (search_documents idfOne "query" dfHello 5).2 =
      ⟨[recHello], some ([recHello].map combinedText)⟩ :=
  ⟨by decide, c10_search_mutates_dataframe idfOne "query" dfHello 5 (by decide)⟩

/-- C4 counterexample: the empty string is a malformed (non-parseable) JSON
input, and submitting it leaves the store unchanged — but no MalformedInput
error is surfaced, because `if submitted and json_input:` treats the empty
string as falsy and skips the handler entirely (nothing is rendered at all). -/
theorem c4_counterexample :
    failingParse "" = Except.error () ∧
    tab1Submit failingParse "2025-01-01 00:00:00" "" [] = ([], none) ∧
    (none : Option SubmitResult) ≠ some SubmitResult.malformedInput :=
  ⟨rfl, rfl, fun h => Option.noConfusion h⟩

/-- C4 amended: for every NON-EMPTY malformed JSON input submitted to the
form, the store is left unchanged and the MalformedInput error is surfaced;
the empty input also leaves the store unchanged but surfaces nothing. -/
theorem c4_amended_malformed_input (jsonLoads : String → Except Unit JValue)
    (now json_input : String) (store : Store) (hne : json_input ≠ "")
    (hmal : jsonLoads json_input = Except.error ()) :
    tab1Submit jsonLoads now json_input store =
      (store, some SubmitResult.malformedInput) := by
  unfold tab1Submit
  rw [if_neg hne, hmal]

/-- Witness for the amended C4 at a concrete input: the all-whitespace input
(non-empty, rejected by `json.loads`) is reported and the store untouched. -/
theorem c4_amended_malformed_input_witness :
    (" " ≠ "") ∧ failingParse " " = Except.error () ∧
    tab1Submit failingParse "2025-01-01 00:00:00" " " [] =
      ([], some SubmitResult.malformedInput) :=
  ⟨by decide, rfl,
    c4_amended_malformed_input failingParse "2025-01-01 00:00:00" " " [] (by decide) rfl⟩

lemma simsHello_eq : cosineSimsSq idfOne "hello" ([recHello].map combinedText) = [1] := by
  unfold cosineSimsSq tfidfVec
  rw [show vocabulary ([recHello].map combinedText) = ["hello"] from by decide]
  simp only [List.map, idfOne]
  rw [show (tokenize "hello").count "hello" = 1 from by decide,
      show (tokenize (combinedText recHello)).count "hello" = 1 from by decide]
  norm_num [cosSimSq, dot]

lemma simsPair_eq :
    cosineSimsSq idfOne "hello" ([recHello, recHelloSummary].map combinedText) = [1, 1] := by
  unfold cosineSimsSq tfidfVec
  rw [show vocabulary ([recHello, recHelloSummary].map combinedText) = ["hello"] from by decide]
  simp only [List.map, idfOne]
  rw [show (tokenize "hello").count "hello" = 1 from by decide,
      show (tokenize (combinedText recHello)).count "hello" = 1 from by decide,
      show (tokenize (combinedText recHelloSummary)).count "hello" = 1 from by decide]
  norm_num [cosSimSq, dot]

/-- C1 counterexample: with `top_k = 0` the claim "search returns at most
topK records" fails: `cosine_sim.argsort()[-0:]` is the WHOLE index array, so
a one-record store with a matching query returns 1 > 0 records.  (`idfOne` is
an admissible idf weighting.) -/
theorem c1_counterexample :
    ¬ (search_documents idfOne "hello" ⟨[recHello], none⟩ 0).1.length ≤ 0 := by
  rw [search_documents_eval idfOne "hello" ⟨[recHello], none⟩ 0 (by decide) (by decide)]
  dsimp only
  rw [simsHello_eq, show topIndices [1] 0 = [0] from rfl]
  norm_num [List.filterMap_cons, List.getD]

/-- C1 amended: for every topK ≥ 1 (the code's own default is 3), every idf
weighting, every query and every record set, search returns at most topK
records, and every returned record sits at an index whose cosine similarity
to the query is strictly positive. -/
theorem c1_amended_topk_bound_and_positivity (idf : ℕ → ℕ → ℚ) (query : String)
    (df : DataFrame) (top_k : ℕ) (hk : 1 ≤ top_k) :
    (search_documents idf query df top_k).1.length ≤ top_k ∧
    ∀ r ∈ (search_documents idf query df top_k).1,
      ∃ idx, df.rows[idx]? = some r ∧
        0 < (cosineSimsSq idf query (df.rows.map combinedText)).getD idx 0 := by
  by_cases hne : df.rows = []
  · constructor
    · rw [show search_documents idf query df top_k = ([], df) from by
        unfold search_documents
        rw [if_pos (by simpa [List.isEmpty_iff] using hne)]]
      exact Nat.zero_le _
    · intro r hr
      rw [show search_documents idf query df top_k = ([], df) from by
        unfold search_documents
        rw [if_pos (by simpa [List.isEmpty_iff] using hne)]] at hr
      exact absurd hr (List.not_mem_nil r)
  · by_cases hv : vocabulary (df.rows.map combinedText) = []
    · constructor
      · rw [search_documents_vocab_empty idf query df top_k hne hv]
        exact Nat.zero_le _
      · intro r hr
        rw [search_documents_vocab_empty idf query df top_k hne hv] at hr
        exact absurd hr (List.not_mem_nil r)
    · rw [search_documents_eval idf query df top_k hne hv]
      constructor
      · exact le_trans (List.length_filterMap_le _ _)
          (topIndices_length_le _ (by omega))
      · intro r hr
        rw [List.mem_filterMap] at hr
        obtain ⟨idx, _, hf⟩ := hr
        by_cases hpos :
            0 < (cosineSimsSq idf query (df.rows.map combinedText)).getD idx 0
        · rw [if_pos hpos] at hf
          exact ⟨idx, hf, hpos⟩
        · rw [if_neg hpos] at hf
          exact absurd hf (Option.noConfusion)

/-- Witness for the amended C1 at a concrete input with `top_k = 3`. -/
theorem c1_amended_topk_bound_and_positivity_witness :
    1 ≤ 3 ∧
    ((search_documents idfOne "hello" dfHello 3).1.length ≤ 3 ∧
     ∀ r ∈ (search_documents idfOne "hello" dfHello 3).1,
       ∃ idx, dfHello.rows[idx]? = some r ∧
         0 < (cosineSimsSq idfOne "hello" (dfHello.rows.map combinedText)).getD idx 0) :=
  ⟨by decide, c1_amended_topk_bound_and_positivity idfOne "hello" dfHello 3 (by decide)⟩

/-- C9 counterexample: a list value under the recognized key "tags" is NOT
flattened to a newline-bulleted string — the raw list lands in cell 12 of the
appended row (only `key_arguments` and `evidence` are joined in the code). -/
theorem c9_counterexample :
    rowData "t" fieldsTags =
      Except.ok [JValue.str "t", JValue.str "", JValue.str "", JValue.str "",
        JValue.str "", JValue.str "", JValue.str "", JValue.str "", JValue.str "",
        JValue.str "", JValue.str "", JValue.str "",
        JValue.arr [JValue.str "a", JValue.str "b"], JValue.str ""] ∧
    JValue.arr [JValue.str "a", JValue.str "b"] ≠ JValue.str "- a\n- b" :=
  ⟨rfl, fun h => JValue.noConfusion h⟩

/-- C9 amended: only the `key_arguments` and `evidence` keys have list values
flattened to newline-bulleted strings; every other recognized key's value
(in particular `tags` and `implications`) is copied into its row cell
unchanged. -/
theorem c9_amended_only_ka_evidence_flattened (now : String)
    (fields : List (String × JValue)) (ka ev : List String)
    (hka : dGet fields "key_arguments" (JValue.arr []) = JValue.arr (ka.map JValue.str))
    (hev : dGet fields "evidence" (JValue.arr []) = JValue.arr (ev.map JValue.str)) :
    rowData now fields =
      Except.ok
        [ JValue.str now,
          dGet fields "published_at" (JValue.str ""),
          dGet fields "video_id" (JValue.str ""),
          dGet fields "title" (JValue.str ""),
          dGet fields "channel_name" (JValue.str ""),
          dGet fields "main_topic" (JValue.str ""),
          JValue.str (bulletJoin ka),
          JValue.str (bulletJoin ev),
          dGet fields "implications" (JValue.str ""),
          dGet fields "validity_check" (JValue.str ""),
          dGet fields "sentiment" (JValue.str ""),
          dGet fields "full_summary" (JValue.str ""),
          dGet fields "tags" (JValue.str ""),
          dGet fields "url" (JValue.str "") ] := by
  unfold rowData
  rw [hka, pyJoin_arr_str, hev, pyJoin_arr_str]
  rfl

/-- Witness for the amended C9 at a concrete input: `key_arguments` is
flattened to a bulleted string while `tags` passes through as a raw list. -/
theorem c9_amended_only_ka_evidence_flattened_witness :
    (dGet fieldsKaTags "key_arguments" (JValue.arr []) =
      JValue.arr ((["x", "y"] : List String).map JValue.str)) ∧
    (dGet fieldsKaTags "evidence" (JValue.arr []) =
      JValue.arr (([] : List String).map JValue.str)) ∧
    rowData "t" fieldsKaTags =
      Except.ok
        [ JValue.str "t",
          dGet fieldsKaTags "published_at" (JValue.str ""),
          dGet fieldsKaTags "video_id" (JValue.str ""),
          dGet fieldsKaTags "title" (JValue.str ""),
          dGet fieldsKaTags "channel_name" (JValue.str ""),
          dGet fieldsKaTags "main_topic" (JValue.str ""),
          JValue.str (bulletJoin ["x", "y"]),
          JValue.str (bulletJoin []),
          dGet fieldsKaTags "implications" (JValue.str ""),
          dGet fieldsKaTags "validity_check" (JValue.str ""),
          dGet fieldsKaTags "sentiment" (JValue.str ""),
          dGet fieldsKaTags "full_summary" (JValue.str ""),
          dGet fieldsKaTags "tags" (JValue.str ""),
          dGet fieldsKaTags "url" (JValue.str "") ] :=
  ⟨rfl, rfl, c9_amended_only_ka_evidence_flattened "t" fieldsKaTags ["x", "y"] [] rfl rfl⟩

lemma getD_map_zero (l : List String) (i : ℕ) :
    (l.map (fun _ => (0 : ℚ))).getD i 0 = 0 := by
  induction l generalizing i with
  | nil => rfl
  | cons a t ih =>
    cases i with
    | zero => rfl
    | succ n => exact ih n

/-- C2 counterexample: two distinct records with identical token content tie
at similarity 1, and search places the LARGER index first (`[::-1]` reverses
the stable ascending argsort), contradicting "the smaller index is preferred
and placed first". -/
theorem c2_counterexample :
    cosineSimsSq idfOne "hello" ([recHello, recHelloSummary].map combinedText) = [1, 1] ∧
    recHello ≠ recHelloSummary ∧
    (search_documents idfOne "hello" ⟨[recHello, recHelloSummary], none⟩ 3).1 =
      [recHelloSummary, recHello] := by
  refine ⟨simsPair_eq, by decide, ?_⟩
  rw [search_documents_eval idfOne "hello" ⟨[recHello, recHelloSummary], none⟩ 3
    (by decide) (by decide)]
  dsimp only
  rw [simsPair_eq]
  have hasort : argsort [(1 : ℚ), 1] = [0, 1] := by
    unfold argsort
    rw [show List.range ([(1 : ℚ), 1]).length = [0, 1] from rfl]
    simp only [List.insertionSort, List.orderedInsert, List.orderedInsert_nil]
    rw [if_pos (show argsortKey [(1 : ℚ), 1] 0 1 from Or.inr ⟨rfl, by omega⟩)]
  have hsort : topIndices [(1 : ℚ), 1] 3 = [1, 0] := by
    unfold topIndices sliceLastReverse
    rw [hasort]
    rfl
  rw [hsort]
  norm_num [List.filterMap_cons, List.getD_cons_succ, List.getD_cons_zero]

/-- C2 amended: on a non-empty record set, search returns the records at the
(up to) topK highest-similarity indices — all indices when topK = 0 — with
similarities ≤ 0 dropped, in order of non-increasing similarity.  The order
among equal-similarity records is NOT guaranteed (numpy's default argsort is
not stable), and in particular it is not always the smaller index first: in
the two-record tie of `c2_counterexample` the larger index comes first.
Formally: the result is generated by a duplicate-free sequence `idxs` of
valid indices whose length is topK capped at the record count (everything for
topK = 0), whose similarity values are non-increasing along the sequence, and
each of whose entries has similarity at least that of every unselected index.
Each conjunct is tie-robust: it holds for every correct ascending argsort
outcome, whatever numpy's unstable quicksort does on ties. -/
theorem c2_amended_ranking (idf : ℕ → ℕ → ℚ) (query : String) (df : DataFrame)
    (top_k : ℕ) (sims : List ℚ)
    (hsims : sims = cosineSimsSq idf query (df.rows.map combinedText))
    (hne : df.rows ≠ []) :
    ∃ idxs : List ℕ,
      (search_documents idf query df top_k).1 =
        idxs.filterMap (fun idx => if 0 < sims.getD idx 0 then df.rows[idx]? else none) ∧
      idxs.length = (if top_k = 0 then sims.length else min top_k sims.length) ∧
      idxs.Nodup ∧
      (∀ i ∈ idxs, i < sims.length) ∧
      idxs.Pairwise (fun i j => sims.getD j 0 ≤ sims.getD i 0) ∧
      (∀ i ∈ idxs, ∀ j, j < sims.length → j ∉ idxs → sims.getD j 0 ≤ sims.getD i 0) := by
  subst hsims
  refine ⟨topIndices (cosineSimsSq idf query (df.rows.map combinedText)) top_k,
    ?_, topIndices_length _ _, topIndices_nodup _ _, topIndices_mem_lt _ _,
    topIndices_pairwise_ge _ _, topIndices_optimal _ _⟩
  by_cases hv : vocabulary (df.rows.map combinedText) = []
  · have hz : ∀ i, (cosineSimsSq idf query (df.rows.map combinedText)).getD i 0 = 0 := by
      intro i
      rw [cosineSimsSq_of_vocab_empty idf query hv]
      exact getD_map_zero _ i
    rw [search_documents_vocab_empty idf query df top_k hne hv]
    refine (List.filterMap_eq_nil_iff.mpr ?_).symm
    intro a _
    rw [hz a]
    simp
  · rw [search_documents_eval idf query df top_k hne hv]

/-- Witness for the amended C2 at a concrete input. -/
theorem c2_amended_ranking_witness :
    (simsHello = cosineSimsSq idfOne "hello" (dfHello.rows.map combinedText)) ∧
    (dfHello.rows ≠ []) ∧
    (∃ idxs : List ℕ,
      (search_documents idfOne "hello" dfHello 3).1 =
        idxs.filterMap (fun idx => if 0 < simsHello.getD idx 0 then dfHello.rows[idx]? else none) ∧
      idxs.length = (if 3 = 0 then simsHello.length else min 3 simsHello.length) ∧
      idxs.Nodup ∧
      (∀ i ∈ idxs, i < simsHello.length) ∧
      idxs.Pairwise (fun i j => simsHello.getD j 0 ≤ simsHello.getD i 0) ∧
      (∀ i ∈ idxs, ∀ j, j < simsHello.length → j ∉ idxs →
        simsHello.getD j 0 ≤ simsHello.getD i 0)) :=
  ⟨rfl, by decide, c2_amended_ranking idfOne "hello" dfHello 3 simsHello rfl (by decide)⟩

/-- C3: for the two-record store of the spec's example and the query
"interest rates", under every admissible idf weighting the first record's
cosine similarity strictly exceeds the second's (which shares no token with
the query), and the search in fact returns exactly the first record.  Every
token of either document occurs in exactly one of the two documents, so every
idf factor in play is `idf 2 1`. -/
theorem c3_example_ranking (idf : ℕ → ℕ → ℚ) (hidf : ∀ n d, 1 ≤ idf n d) :
    (cosineSimsSq idf "interest rates" ([recFed, recGold].map combinedText)).getD 1 0 <
      (cosineSimsSq idf "interest rates" ([recFed, recGold].map combinedText)).getD 0 0 ∧
    (search_documents idf "interest rates" ⟨[recFed, recGold], none⟩ 3).1 = [recFed] := by
  have hidf21 : 0 < idf 2 1 := lt_of_lt_of_le zero_lt_one (hidf 2 1)
  have hvocab : vocabulary [combinedText recFed, combinedText recGold] =
      ["bullish", "fed", "gold", "hike", "outlook", "rate", "rates", "up"] := by decide
  have hqv : tfidfVec idf [combinedText recFed, combinedText recGold]
      (vocabulary [combinedText recFed, combinedText recGold]) "interest rates" =
      [0, 0, 0, 0, 0, 0, idf 2 1, 0] := by
    rw [hvocab]
    unfold tfidfVec
    simp only [List.map]
    rw [show (tokenize "interest rates").count "bullish" = 0 from by decide,
        show (tokenize "interest rates").count "fed" = 0 from by decide,
        show (tokenize "interest rates").count "gold" = 0 from by decide,
        show (tokenize "interest rates").count "hike" = 0 from by decide,
        show (tokenize "interest rates").count "outlook" = 0 from by decide,
        show (tokenize "interest rates").count "rate" = 0 from by decide,
        show (tokenize "interest rates").count "rates" = 1 from by decide,
        show (tokenize "interest rates").count "up" = 0 from by decide,
        show docFreq [combinedText recFed, combinedText recGold] "rates" = 1 from by decide,
        show ([combinedText recFed, combinedText recGold] : List String).length = 2 from rfl]
    norm_num
  have hdv1 : tfidfVec idf [combinedText recFed, combinedText recGold]
      (vocabulary [combinedText recFed, combinedText recGold]) (combinedText recFed) =
      [0, idf 2 1, 0, idf 2 1, 0, idf 2 1, idf 2 1, idf 2 1] := by
    rw [hvocab]
    unfold tfidfVec
    simp only [List.map]
    rw [show (tokenize (combinedText recFed)).count "bullish" = 0 from by decide,
        show (tokenize (combinedText recFed)).count "fed" = 1 from by decide,
        show (tokenize (combinedText recFed)).count "gold" = 0 from by decide,
        show (tokenize (combinedText recFed)).count "hike" = 1 from by decide,
        show (tokenize (combinedText recFed)).count "outlook" = 0 from by decide,
        show (tokenize (combinedText recFed)).count "rate" = 1 from by decide,
        show (tokenize (combinedText recFed)).count "rates" = 1 from by decide,
        show (tokenize (combinedText recFed)).count "up" = 1 from by decide,
        show docFreq [combinedText recFed, combinedText recGold] "fed" = 1 from by decide,
        show docFreq [combinedText recFed, combinedText recGold] "hike" = 1 from by decide,
        show docFreq [combinedText recFed, combinedText recGold] "rate" = 1 from by decide,
        show docFreq [combinedText recFed, combinedText recGold] "rates" = 1 from by decide,
        show docFreq [combinedText recFed, combinedText recGold] "up" = 1 from by decide,
        show ([combinedText recFed, combinedText recGold] : List String).length = 2 from rfl]
    norm_num
  have hdv2 : tfidfVec idf [combinedText recFed, combinedText recGold]
      (vocabulary [combinedText recFed, combinedText recGold]) (combinedText recGold) =
      [idf 2 1, 0, 2 * idf 2 1, 0, idf 2 1, 0, 0, 0] := by
    rw [hvocab]
    unfold tfidfVec
    simp only [List.map]
    rw [show (tokenize (combinedText recGold)).count "bullish" = 1 from by decide,
        show (tokenize (combinedText recGold)).count "fed" = 0 from by decide,
        show (tokenize (combinedText recGold)).count "gold" = 2 from by decide,
        show (tokenize (combinedText recGold)).count "hike" = 0 from by decide,
        show (tokenize (combinedText recGold)).count "outlook" = 1 from by decide,
        show (tokenize (combinedText recGold)).count "rate" = 0 from by decide,
        show (tokenize (combinedText recGold)).count "rates" = 0 from by decide,
        show (tokenize (combinedText recGold)).count "up" = 0 from by decide,
        show docFreq [combinedText recFed, combinedText recGold] "bullish" = 1 from by decide,
        show docFreq [combinedText recFed, combinedText recGold] "gold" = 1 from by decide,
        show docFreq [combinedText recFed, combinedText recGold] "outlook" = 1 from by decide,
        show ([combinedText recFed, combinedText recGold] : List String).length = 2 from rfl]
    norm_num
  have hsims : cosineSimsSq idf "interest rates" (List.map combinedText [recFed, recGold]) =
      [cosSimSq [0, 0, 0, 0, 0, 0, idf 2 1, 0] [0, idf 2 1, 0, idf 2 1, 0, idf 2 1, idf 2 1, idf 2 1],
       cosSimSq [0, 0, 0, 0, 0, 0, idf 2 1, 0] [idf 2 1, 0, 2 * idf 2 1, 0, idf 2 1, 0, 0, 0]] := by
    unfold cosineSimsSq
    simp only [List.map]
    rw [hqv, hdv1, hdv2]
  have hs1 : cosSimSq [0, 0, 0, 0, 0, 0, idf 2 1, 0]
      [idf 2 1, 0, 2 * idf 2 1, 0, idf 2 1, 0, 0, 0] = 0 := by
    have hnum : dot [0, 0, 0, 0, 0, 0, idf 2 1, 0]
        [idf 2 1, 0, 2 * idf 2 1, 0, idf 2 1, 0, 0, 0] = 0 := by
      simp [dot]
    simp only [cosSimSq]
    rw [hnum]
    split <;> norm_num
  have hs0 : 0 < cosSimSq [0, 0, 0, 0, 0, 0, idf 2 1, 0]
      [0, idf 2 1, 0, idf 2 1, 0, idf 2 1, idf 2 1, idf 2 1] := by
    have hnum : dot [0, 0, 0, 0, 0, 0, idf 2 1, 0]
        [0, idf 2 1, 0, idf 2 1, 0, idf 2 1, idf 2 1, idf 2 1] = idf 2 1 * idf 2 1 := by
      simp [dot]
    have hqq : dot [0, 0, 0, 0, 0, 0, idf 2 1, 0] [0, 0, 0, 0, 0, 0, idf 2 1, 0] =
        idf 2 1 * idf 2 1 := by
      simp [dot]
    have hdd : dot [0, idf 2 1, 0, idf 2 1, 0, idf 2 1, idf 2 1, idf 2 1]
        [0, idf 2 1, 0, idf 2 1, 0, idf 2 1, idf 2 1, idf 2 1] =
        5 * (idf 2 1 * idf 2 1) := by
      simp [dot]
      ring
    have hii : 0 < idf 2 1 * idf 2 1 := mul_pos hidf21 hidf21
    have hden : 0 < idf 2 1 * idf 2 1 * (5 * (idf 2 1 * idf 2 1)) :=
      mul_pos hii (mul_pos (by norm_num) hii)
    unfold cosSimSq
    rw [hnum, hqq, hdd]
    rw [if_neg (ne_of_gt hden)]
    exact div_pos (pow_pos hii 2) hden
  constructor
  · rw [show ([recFed, recGold].map combinedText) =
        (List.map combinedText [recFed, recGold]) from rfl, hsims]
    simp only [List.getD_cons_zero, List.getD_cons_succ]
    rw [hs1]
    exact hs0
  · rw [search_documents_eval idf "interest rates" ⟨[recFed, recGold], none⟩ 3
      (by decide) (by decide)]
    dsimp only
    rw [hsims, hs1]
    have hkey : ¬ argsortKey
        [cosSimSq [0, 0, 0, 0, 0, 0, idf 2 1, 0]
          [0, idf 2 1, 0, idf 2 1, 0, idf 2 1, idf 2 1, idf 2 1], 0] 0 1 := by
      unfold argsortKey
      simp only [List.getD_cons_zero, List.getD_cons_succ]
      rintro (h | ⟨h, -⟩) <;> [linarith [hs0]; linarith [hs0]]
    have hasort : argsort
        [cosSimSq [0, 0, 0, 0, 0, 0, idf 2 1, 0]
          [0, idf 2 1, 0, idf 2 1, 0, idf 2 1, idf 2 1, idf 2 1], 0] = [1, 0] := by
      unfold argsort
      rw [show List.range
          ([cosSimSq [0, 0, 0, 0, 0, 0, idf 2 1, 0]
            [0, idf 2 1, 0, idf 2 1, 0, idf 2 1, idf 2 1, idf 2 1], 0] : List ℚ).length =
          [0, 1] from rfl]
      simp only [List.insertionSort, List.orderedInsert, List.orderedInsert_nil]
      rw [if_neg hkey]
    rw [show topIndices
        [cosSimSq [0, 0, 0, 0, 0, 0, idf 2 1, 0]
          [0, idf 2 1, 0, idf 2 1, 0, idf 2 1, idf 2 1, idf 2 1], 0] 3 =
        [0, 1] from by
      unfold topIndices sliceLastReverse
      rw [hasort]
      rfl]
    simp only [List.filterMap_cons, List.filterMap_nil, List.getD_cons_zero,
      List.getD_cons_succ, hs0, if_true, lt_self_iff_false, if_false,
      List.getElem?_cons_zero, List.getElem?_cons_succ]

/-- Witness for C3: the constant weighting 1 is admissible, and the
conclusion holds for it. -/
theorem c3_example_ranking_witness :
    (∀ n d : ℕ, 1 ≤ idfOne n d) ∧
    ((cosineSimsSq idfOne "interest rates" ([recFed, recGold].map combinedText)).getD 1 0 <
       (cosineSimsSq idfOne "interest rates" ([recFed, recGold].map combinedText)).getD 0 0 ∧
     (search_documents idfOne "interest rates" ⟨[recFed, recGold], none⟩ 3).1 = [recFed]) :=
  ⟨fun _ _ => le_refl 1, c3_example_ranking idfOne (fun _ _ => le_refl 1)⟩

/-- C5 counterexample: the well-formed JSON object binding key_arguments to
null makes `"\n- ".join(None)` raise `TypeError`, so submission does NOT
succeed — the store stays empty and the generic save error is rendered
instead of a success. -/
theorem c5_counterexample :
    tab1Submit kaNullParse "2025-01-01 00:00:00" "\x7b\"key_arguments\": null\x7d" [] =
      ([], some SubmitResult.saveError) ∧
    ∀ t, SubmitResult.saveError ≠ SubmitResult.success t :=
  ⟨rfl, fun _ h => SubmitResult.noConfusion h⟩

/-- C5 amended: for every well-formed JSON object input (submitted as a
non-empty string) on which the row construction succeeds — in particular
whenever the key_arguments and evidence values are joinable, which holds for
every object missing those keys — submission appends exactly the built row
and reports success, the row has the 14 sheet cells, and every recognized key
absent from the object contributes the empty string to its cell. -/
theorem c5_amended_missing_fields_default (jsonLoads : String → Except Unit JValue)
    (now json_input : String) (store : Store) (fields : List (String × JValue)) (row : Row)
    (hne : json_input ≠ "")
    (hparse : jsonLoads json_input = Except.ok (JValue.obj fields))
    (hrow : rowData now fields = Except.ok row) :
    tab1Submit jsonLoads now json_input store =
      (save_data store row, some (SubmitResult.success (dGet fields "title" JValue.null))) ∧
    row.length = 14 ∧
    ∀ p ∈ dataKeyCells, (∀ v, (p.2, v) ∉ fields) →
      row.getD p.1 JValue.null = JValue.str "" := by
  have hmain : tab1Submit jsonLoads now json_input store =
      (save_data store row, some (SubmitResult.success (dGet fields "title" JValue.null))) := by
    unfold tab1Submit
    rw [if_neg hne, hparse]
    dsimp only
    rw [hrow]
  refine ⟨hmain, ?_⟩
  unfold rowData at hrow
  rcases hka : pyJoin "\n- " (dGet fields "key_arguments" (JValue.arr [])) with e | kaJ
  · rw [hka] at hrow
    exact absurd hrow (by simp)
  rw [hka] at hrow
  rcases hev : pyJoin "\n- " (dGet fields "evidence" (JValue.arr [])) with e | evJ
  · rw [hev] at hrow
    exact absurd hrow (by simp)
  rw [hev] at hrow
  dsimp only at hrow
  injection hrow with hrow
  subst hrow
  refine ⟨rfl, ?_⟩
  intro p hp hmiss
  simp only [dataKeyCells, List.mem_cons, List.not_mem_nil, or_false] at hp
  rcases hp with rfl | rfl | rfl | rfl | rfl | rfl | rfl | rfl | rfl | rfl | rfl | rfl | rfl <;>
    simp only [List.getD_cons_succ, List.getD_cons_zero] <;>
    first
      | exact dGet_of_not_mem hmiss
      | (rw [dGet_of_not_mem hmiss] at hka
         rw [show pyJoin "\n- " (JValue.arr []) = Except.ok "" from rfl] at hka
         injection hka with h
         subst h
         rfl)
      | (rw [dGet_of_not_mem hmiss] at hev
         rw [show pyJoin "\n- " (JValue.arr []) = Except.ok "" from rfl] at hev
         injection hev with h
         subst h
         rfl)

/-- Witness for the amended C5 at the empty JSON object: submission appends a
row of empty-string placeholders and reports success. -/
theorem c5_amended_missing_fields_default_witness :
    ("\x7b\x7d" ≠ "") ∧
    emptyObjParse "\x7b\x7d" = Except.ok (JValue.obj []) ∧
    rowData "2025-01-01 00:00:00" [] = Except.ok row14Empty ∧
    (tab1Submit emptyObjParse "2025-01-01 00:00:00" "\x7b\x7d" [] =
       (save_data [] row14Empty, some (SubmitResult.success (dGet [] "title" JValue.null))) ∧
     row14Empty.length = 14 ∧
     ∀ p ∈ dataKeyCells, (∀ v, (p.2, v) ∉ ([] : List (String × JValue))) →
       row14Empty.getD p.1 JValue.null = JValue.str "") :=
  ⟨by decide, rfl, rfl,
    c5_amended_missing_fields_default emptyObjParse "2025-01-01 00:00:00" "\x7b\x7d" []
      [] row14Empty (by decide) rfl rfl⟩

end App
